import Mathlib

/-!
Verification development for the core of the sloth language
(`sloth/core.py`, `sloth/primitives.py`): a shallow embedding of the
virtual machine, its character stream, its numeric-literal parser, the
primitive words needed by the properties under study, and the top-level
interpreter loop, together with theorems settling the stated properties.

Conventions of the embedding:
* Python exceptions are modelled by an explicit error type `PyErr` and a
  result type `PyRes` that carries the state at the point the exception
  was raised (Python handlers observe the mutated state).
* Stacks are Lean lists with the top at the head (Python's `self[-1]`).
* `DefinedWord` objects are mutable and aliased in Python; they live in
  an arena (`VMState.words`) and are referenced by index.
* Recursive interpretation uses an explicit fuel parameter so that all
  definitions are structurally recursive and kernel-computable.
* The `errors` module of the repository only declares the exception
  classes `VmRuntimeError` and `WordExit`; following the spec they are
  modelled as distinct error kinds (a runtime error carrying a message,
  and a control-flow signal).
-/

namespace Sloth

/-- The built-in words of the primitives registry that the properties
under study exercise (a faithful subset of `PRIMITIVES` in
`sloth/primitives.py`). -/
inductive Builtin where
  | neg | add | sub | mul
  | dup | drop | swap | over | rot
  | zeroEq | zeroNe | zeroLt | zeroGt | oneEq
  | exitB | branchB | zbranchB
  | lbrac | rbrac | commaB
  | colonB | semicolonB | createB | hiddenB | doesB
  | parenComment
  deriving DecidableEq, Repr

/-- A dictionary entry: either a built-in word or a reference to a
`DefinedWord` object, identified by its index in the VM's word arena. -/
inductive WordRef where
  | builtin (b : Builtin)
  | defined (id : Nat)
  deriving DecidableEq, Repr

/-- Run-time values: Python ints, floats, complex numbers, booleans,
strings and word objects.  Floats and complex components are modelled
exactly as rationals (the exact value denoted by a numeric literal); no
claim under study depends on IEEE-754 rounding. -/
inductive Val where
  | int (n : Int)
  | float (q : Rat)
  | complex (re im : Rat)
  | bool (b : Bool)
  | str (s : String)
  | word (w : WordRef)
  deriving DecidableEq, Repr

/-- The state of a `DefinedWord` object (`primitives.py`, class
`DefinedWord`).  The unused `definition_text` attribute is omitted. -/
structure DefWord where
  symbol : String
  immediate : Bool
  code : List Val
  stack_effect : Option String
  hidden : Bool
  text_location : Option Nat
  deriving DecidableEq, Repr

/-- Python exception kinds arising in the embedded fragment.
`vmRuntime` is `VmRuntimeError`; `wordExit` is the `WordExit`
control-flow signal (both declared in the `errors` module, modelled
from the spec's error taxonomy); the remaining kinds are host (Python)
exceptions.  `outOfFuel` is an artifact of the embedding marking fuel
exhaustion, not a Python exception. -/
inductive PyErr where
  | vmRuntime (msg : String)
  | wordExit
  | indexError (msg : String)
  | typeError (msg : String)
  | attributeError (msg : String)
  | valueError (msg : String)
  | outOfFuel
  deriving DecidableEq, Repr

instance {ε α : Type} [DecidableEq ε] [DecidableEq α] : DecidableEq (Except ε α) := fun x y =>
  match x, y with
  | Except.ok a, Except.ok b =>
      if h : a = b then isTrue (by rw [h]) else isFalse (fun hh => h (by injection hh))
  | Except.error a, Except.error b =>
      if h : a = b then isTrue (by rw [h]) else isFalse (fun hh => h (by injection hh))
  | Except.ok _, Except.error _ => isFalse (fun hh => Except.noConfusion hh)
  | Except.error _, Except.ok _ => isFalse (fun hh => Except.noConfusion hh)

/-- The character stream (`core.py`, class `CharStream`): a `StringIO`
buffer with a single read/write position, plus the recorded start of
the most recent word. -/
structure CharStream where
  content : List Char
  pos : Nat
  last_word_start : Option Nat
  deriving DecidableEq, Repr

/-- Python `string.whitespace` membership. -/
def isPyWs (c : Char) : Bool :=
  c = ' ' || c = '\t' || c = '\n' || c = '\r' || c = Char.ofNat 11 || c = Char.ofNat 12

/-- The portion of the stream that has not yet been read. -/
def csUnread (cs : CharStream) : List Char :=
  cs.content.drop cs.pos

/-- Method `CharStream.write`: remember the position, write `'\n'` followed by
`text` at that position (a `StringIO` write overwrites in place,
extending the buffer at its end), and seek back. -/
def csWrite (cs : CharStream) (text : String) : CharStream :=
  { cs with content :=
      cs.content.take cs.pos ++ '\n' :: text.data ++
        cs.content.drop (cs.pos + 1 + text.data.length) }

/-- Whitespace-skipping phase of `CharStream.__next__`: returns the
first non-whitespace character, the number of characters consumed
(including it), and the rest; `none` when the stream ends first
(`StopIteration`). -/
def skipWs : List Char → Option (Char × Nat × List Char)
  | [] => none
  | c :: rest =>
      if isPyWs c then
        match skipWs rest with
        | none => none
        | some (c', k, rest') => some (c', k + 1, rest')
      else
        some (c, 1, rest)

/-- Accumulation phase of `CharStream.__next__`: characters up to the
next whitespace, and the number of characters consumed (the
terminating whitespace character, if any, is consumed too). -/
def accumWord : List Char → (List Char × Nat)
  | [] => ([], 0)
  | c :: rest =>
      if isPyWs c then ([], 1)
      else
        match accumWord rest with
        | (w, k) => (c :: w, k + 1)

/-- Method `CharStream.__next__`: the next whitespace-separated word, or
`none` for `StopIteration`.  `last_word_start` records `tell()` right
after the first character of the word was read. -/
def csNextWord (cs : CharStream) : CharStream × Option String :=
  match skipWs (csUnread cs) with
  | none => ({ cs with pos := cs.content.length }, none)
  | some (c, k, rest) =>
      match accumWord rest with
      | (w, m) =>
          ({ cs with pos := cs.pos + k + m, last_word_start := some (cs.pos + k) },
           some (String.mk (c :: w)))

/-! ## Numeric literals

`NUMLIT_RE = re.compile('(-)?' + tokenize.Number)` used with
`fullmatch`.  `tokenize.Number` is the CPython number pattern
(hex/oct/bin/decimal integers, floats, imaginary literals, with
underscore separators). -/

/-- Does the whole list match `(?:_?d)+` for digit class `isD`? -/
def groupTail (isD : Char → Bool) : List Char → Bool
  | [] => false
  | '_' :: c :: rest => isD c && (rest.isEmpty || groupTail isD rest)
  | c :: rest => isD c && (rest.isEmpty || groupTail isD rest)

/-- Does the whole list match `[0-9](?:_?[0-9])*`? -/
def digRun : List Char → Bool
  | [] => false
  | c :: rest => c.isDigit && (rest.isEmpty || groupTail Char.isDigit rest)

/-- Hexadecimal digit. -/
def isHexD (c : Char) : Bool :=
  c.isDigit || ('a' ≤ c && c ≤ 'f') || ('A' ≤ c && c ≤ 'F')

/-- Pattern `tokenize.Decnumber`: `0(?:_?0)*` or `[1-9](?:_?[0-9])*`. -/
def decnum : List Char → Bool
  | [] => false
  | '0' :: rest => rest.isEmpty || groupTail (fun c => c = '0') rest
  | c :: rest => ('1' ≤ c && c ≤ '9') && (rest.isEmpty || groupTail Char.isDigit rest)

/-- Pattern `tokenize.Hexnumber`. -/
def hexnum : List Char → Bool
  | '0' :: x :: rest => (x = 'x' || x = 'X') && groupTail isHexD rest
  | _ => false

/-- Pattern `tokenize.Octnumber`. -/
def octnum : List Char → Bool
  | '0' :: x :: rest => (x = 'o' || x = 'O') && groupTail (fun c => '0' ≤ c && c ≤ '7') rest
  | _ => false

/-- Pattern `tokenize.Binnumber`. -/
def binnum : List Char → Bool
  | '0' :: x :: rest => (x = 'b' || x = 'B') && groupTail (fun c => c = '0' || c = '1') rest
  | _ => false

/-- Pattern `tokenize.Intnumber`. -/
def intnum (l : List Char) : Bool :=
  hexnum l || binnum l || octnum l || decnum l

/-- Pattern `tokenize.Exponent`: `[eE][-+]?[0-9](?:_?[0-9])*`. -/
def exppart : List Char → Bool
  | [] => false
  | e :: rest =>
      (e = 'e' || e = 'E') &&
        (match rest with
         | '+' :: r => digRun r
         | '-' :: r => digRun r
         | r => digRun r)

/-- Does some split of `l` satisfy `p` on the left part and `q` on the
right part?  (Whole-string match of a concatenation of two patterns.) -/
def anySplit (p q : List Char → Bool) (l : List Char) : Bool :=
  (List.range (l.length + 1)).any fun i => p (l.take i) && q (l.drop i)

/-- The two bodies of `tokenize.Pointfloat`, without the optional
exponent: `digits '.' digits?` or `'.' digits`. -/
def pointfloatBody (l : List Char) : Bool :=
  anySplit digRun
    (fun t =>
      match t with
      | '.' :: u => u.isEmpty || digRun u
      | _ => false) l ||
  (match l with
   | '.' :: u => digRun u
   | _ => false)

/-- Pattern `tokenize.Pointfloat` (body plus optional exponent). -/
def pointfloat (l : List Char) : Bool :=
  anySplit pointfloatBody (fun t => t.isEmpty || exppart t) l

/-- Pattern `tokenize.Expfloat`: digits followed by a mandatory exponent. -/
def expfloat (l : List Char) : Bool :=
  anySplit digRun exppart l

/-- Pattern `tokenize.Floatnumber`. -/
def floatnum (l : List Char) : Bool :=
  pointfloat l || expfloat l

/-- Pattern `tokenize.Imagnumber`: digits or a float, suffixed by `j`/`J`. -/
def imagnum (l : List Char) : Bool :=
  match l.getLast? with
  | some c => (c = 'j' || c = 'J') && (digRun l.dropLast || floatnum l.dropLast)
  | none => false

/-- Pattern `tokenize.Number`. -/
def tokNumber (l : List Char) : Bool :=
  imagnum l || floatnum l || intnum l

/-- Predicate `is_numeric_literal` (`core.py`): full match of `'(-)?' +
tokenize.Number`. -/
def is_numeric_literal (s : String) : Bool :=
  match s.data with
  | '-' :: rest => tokNumber rest
  | l => tokNumber l

/-- The value categories `eval` can produce for a numeric literal. -/
inductive NumVal where
  | i (n : Int)
  | f (q : Rat)
  | c (im : Rat)
  deriving DecidableEq, Repr

/-- Digit value (for bases up to 16). -/
def digitVal (c : Char) : Nat :=
  if c.isDigit then c.toNat - '0'.toNat
  else if 'a' ≤ c && c ≤ 'f' then c.toNat - 'a'.toNat + 10
  else if 'A' ≤ c && c ≤ 'F' then c.toNat - 'A'.toNat + 10
  else 0

/-- Accumulate digits in the given base, ignoring `_` separators. -/
def natOfDigits (base : Nat) (l : List Char) : Nat :=
  (l.filter (fun c => c ≠ '_')).foldl (fun a c => a * base + digitVal c) 0

/-- Split at the first `e`/`E` (mantissa, optional exponent part). -/
def splitExp : List Char → List Char × Option (List Char)
  | [] => ([], none)
  | c :: rest =>
      if c = 'e' || c = 'E' then ([], some rest)
      else
        match splitExp rest with
        | (m, e) => (c :: m, e)

/-- Split at the first `.` (integer part, optional fractional part). -/
def splitDot : List Char → List Char × Option (List Char)
  | [] => ([], none)
  | c :: rest =>
      if c = '.' then ([], some rest)
      else
        match splitDot rest with
        | (m, e) => (c :: m, e)

/-- The signed integer denoted by an exponent part. -/
def expVal : List Char → Int
  | '+' :: r => (natOfDigits 10 r : Int)
  | '-' :: r => -(natOfDigits 10 r : Int)
  | r => (natOfDigits 10 r : Int)

/-- Exact rational value of a float literal body (used for the value of
`eval` on `Floatnumber` matches; exact where IEEE doubles would round). -/
def decodeFloatLit (l : List Char) : Rat :=
  match splitExp l with
  | (mant, e) =>
      let ex : Int := match e with | none => 0 | some ep => expVal ep
      match splitDot mant with
      | (ip, fp) =>
          let frac : List Char := fp.getD []
          let m : Rat := (natOfDigits 10 (ip ++ frac) : Nat)
          let shift : Int := ex - (frac.filter (fun c => c ≠ '_')).length
          if 0 ≤ shift then m * (10 : Rat) ^ shift.toNat
          else m / (10 : Rat) ^ (-shift).toNat

/-- The number denoted by an unsigned `tokenize.Number` match. -/
def decodeUnsigned (l : List Char) : NumVal :=
  match l with
  | '0' :: x :: rest =>
      if x = 'x' || x = 'X' then NumVal.i (natOfDigits 16 rest : Nat)
      else if x = 'o' || x = 'O' then NumVal.i (natOfDigits 8 rest : Nat)
      else if x = 'b' || x = 'B' then NumVal.i (natOfDigits 2 rest : Nat)
      else
        if ('0' :: x :: rest).getLast? = some 'j' || ('0' :: x :: rest).getLast? = some 'J' then
          NumVal.c (decodeFloatLit (('0' :: x :: rest).dropLast))
        else if ('0' :: x :: rest).any (fun c => c = '.' || c = 'e' || c = 'E') then
          NumVal.f (decodeFloatLit ('0' :: x :: rest))
        else NumVal.i (natOfDigits 10 ('0' :: x :: rest) : Nat)
  | l =>
      if l.getLast? = some 'j' || l.getLast? = some 'J' then
        NumVal.c (decodeFloatLit l.dropLast)
      else if l.any (fun c => c = '.' || c = 'e' || c = 'E') then
        NumVal.f (decodeFloatLit l)
      else NumVal.i (natOfDigits 10 l : Nat)

/-- Negation on literal values. -/
def numValNeg : NumVal → NumVal
  | NumVal.i n => NumVal.i (-n)
  | NumVal.f q => NumVal.f (-q)
  | NumVal.c q => NumVal.c (-q)

/-- The value `eval(name)` produces for a string matching `NUMLIT_RE`. -/
def decodeNumLit (s : String) : NumVal :=
  match s.data with
  | '-' :: rest => numValNeg (decodeUnsigned rest)
  | l => decodeUnsigned l

/-- Injection of literal values into run-time values (a Python
imaginary literal denotes the complex number `0 + q*j`). -/
def numValToVal : NumVal → Val
  | NumVal.i n => Val.int n
  | NumVal.f q => Val.float q
  | NumVal.c q => Val.complex 0 q

/-- Function `convert_numeric_literal` (`core.py`): `eval(name)` under a
full-match check, else `ValueError`. -/
def convert_numeric_literal (s : String) : Except PyErr NumVal :=
  if is_numeric_literal s then Except.ok (decodeNumLit s)
  else Except.error (PyErr.valueError "Invalid numeric literal")

/-! ## Dictionaries

Python `dict` (string keys, insertion ordered, unique keys) modelled as
an association list; `dictInsert` replaces in place or appends. -/

/-- Lookup (`d[k]` / `k in d`). -/
def dictGet (d : List (String × WordRef)) (k : String) : Option WordRef :=
  match d with
  | [] => none
  | (k', v) :: rest => if k' = k then some v else dictGet rest k

/-- Assignment `d[k] = v`. -/
def dictInsert (d : List (String × WordRef)) (k : String) (v : WordRef) :
    List (String × WordRef) :=
  match d with
  | [] => [(k, v)]
  | (k', v') :: rest =>
      if k' = k then (k', v) :: rest else (k', v') :: dictInsert rest k v

/-- Python `d.update(other)`: assign every binding of `other` in order. -/
def dictUpdate (d other : List (String × WordRef)) : List (String × WordRef) :=
  other.foldl (fun acc kv => dictInsert acc kv.1 kv.2) d

/-! ## The virtual machine state -/

/-- The mutable state of a `VirtualMachine` (minus the `backup` slot,
which is modelled separately in `PyVM`). -/
structure VMState where
  stream : CharStream
  ip : Int
  stack : List Val
  return_stack : List Int
  frame_stack : List Nat
  words : List DefWord
  dictionary : List (String × WordRef)
  heap : List (Val × Val)
  last_word : Option Nat
  immediate : Bool
  deriving DecidableEq, Repr

/-- Outcome of running a piece of VM code: normal return or a Python
exception, in both cases together with the state reached (Python
exceptions do not roll back mutations). -/
inductive PyRes (α : Type) where
  | ok (a : α) (st : VMState)
  | exn (e : PyErr) (st : VMState)
  deriving Repr, DecidableEq

/-- State-and-exception monad for the embedded Python code. -/
def PyM (α : Type) : Type := VMState → PyRes α

instance : Monad PyM where
  pure a := fun st => PyRes.ok a st
  bind x f := fun st =>
    match x st with
    | PyRes.ok a st' => f a st'
    | PyRes.exn e st' => PyRes.exn e st'

/-- Raise a Python exception. -/
def throwPy {α : Type} (e : PyErr) : PyM α := fun st => PyRes.exn e st

/-- Read the whole state. -/
def getVM : PyM VMState := fun st => PyRes.ok st st

/-- Replace the whole state. -/
def setVM (st : VMState) : PyM Unit := fun _ => PyRes.ok () st

/-- Transform the state. -/
def modVM (f : VMState → VMState) : PyM Unit := fun st => PyRes.ok () (f st)

/-- Python list indexing `l[i]` (negative indices count from the end);
`none` means `IndexError`. -/
def pyGetI {α : Type} (l : List α) (i : Int) : Option α :=
  if 0 ≤ i then l.get? i.toNat
  else
    let j : Int := (l.length : Int) + i
    if 0 ≤ j then l.get? j.toNat else none

/-- Python list slicing `l[i:]` for a possibly negative start. -/
def pySliceFrom {α : Type} (l : List α) (i : Int) : List α :=
  if 0 ≤ i then l.drop i.toNat
  else l.drop (max ((l.length : Int) + i) 0).toNat

/-- The code list of the `DefinedWord` object with arena index `id`. -/
def codeOf (st : VMState) (id : Nat) : List Val :=
  ((st.words.get? id).map DefWord.code).getD []

/-- Update the `DefinedWord` object with arena index `id` in place. -/
def setWord (id : Nat) (f : DefWord → DefWord) : PyM Unit :=
  modVM fun st =>
    { st with words := match st.words.get? id with
        | some w => st.words.set id (f w)
        | none => st.words }

/-! ## Numeric semantics of the host -/

/-- Python truthiness of the embedded value kinds. -/
def truthy : Val → Bool
  | Val.int n => n ≠ 0
  | Val.float q => q ≠ 0
  | Val.complex re im => ¬(re = 0 ∧ im = 0)
  | Val.bool b => b
  | Val.str s => s ≠ ""
  | Val.word _ => true

/-- The integer a value stands for in arithmetic contexts, when it is
an `int` (or a `bool`, a subtype of `int` in Python). -/
def asInt : Val → Option Int
  | Val.int n => some n
  | Val.bool b => some (if b then 1 else 0)
  | _ => none

/-- Numeric view of a non-integral value (float or complex), as exact
rational components together with a flag marking the complex case. -/
def asFC : Val → Option (Rat × Rat × Bool)
  | Val.float q => some (q, 0, false)
  | Val.complex re im => some (re, im, true)
  | _ => none

/-- Numeric view of any numeric value as rational components. -/
def toNum : Val → Option (Rat × Rat × Bool)
  | Val.int n => some ((n : Rat), 0, false)
  | Val.bool b => some ((if b then 1 else 0 : Rat), 0, false)
  | v => asFC v

/-- Rebuild a non-integral result. -/
def ofFC (re im : Rat) (cplx : Bool) : Val :=
  if cplx then Val.complex re im else Val.float re

/-- Python `operator.add`.  Integers stay exact integers; float and complex
operands follow the numeric tower (their values are exact rationals;
IEEE rounding is outside the embedded fragment); strings concatenate. -/
def pyAdd : Val → Val → Except PyErr Val
  | Val.str a, Val.str b => Except.ok (Val.str (a ++ b))
  | v1, v2 =>
      match asInt v1, asInt v2 with
      | some a, some b => Except.ok (Val.int (a + b))
      | _, _ =>
          match toNum v1, toNum v2 with
          | some (a, b, c1), some (c, d, c2) => Except.ok (ofFC (a + c) (b + d) (c1 || c2))
          | _, _ => Except.error (PyErr.typeError "unsupported operand type(s) for +")

/-- Python `operator.sub`. -/
def pySub (v1 v2 : Val) : Except PyErr Val :=
  match asInt v1, asInt v2 with
  | some a, some b => Except.ok (Val.int (a - b))
  | _, _ =>
      match toNum v1, toNum v2 with
      | some (a, b, c1), some (c, d, c2) => Except.ok (ofFC (a - c) (b - d) (c1 || c2))
      | _, _ => Except.error (PyErr.typeError "unsupported operand type(s) for -")

/-- Python `operator.mul`. -/
def pyMul (v1 v2 : Val) : Except PyErr Val :=
  match asInt v1, asInt v2 with
  | some a, some b => Except.ok (Val.int (a * b))
  | _, _ =>
      match toNum v1, toNum v2 with
      | some (a, b, c1), some (c, d, c2) =>
          Except.ok (ofFC (a * c - b * d) (a * d + b * c) (c1 || c2))
      | _, _ => Except.error (PyErr.typeError "unsupported operand type(s) for *")

/-- Python `operator.neg`. -/
def pyNeg (v : Val) : Except PyErr Val :=
  match asInt v with
  | some a => Except.ok (Val.int (-a))
  | none =>
      match asFC v with
      | some (a, b, c) => Except.ok (ofFC (-a) (-b) c)
      | none => Except.error (PyErr.typeError "bad operand type for unary -")

/-- Python `v == n` for an integer literal `n` (never raises). -/
def pyEqInt (v : Val) (n : Int) : Bool :=
  match asInt v with
  | some m => m = n
  | none =>
      match asFC v with
      | some (re, im, _) => re = (n : Rat) && im = 0
      | none => false

/-- Python `v < n` for an integer literal `n` (`TypeError` on strings,
word objects and complex numbers). -/
def pyLtInt (v : Val) (n : Int) : Except PyErr Bool :=
  match v with
  | Val.int m => Except.ok (m < n)
  | Val.bool b => Except.ok ((if b then (1 : Int) else 0) < n)
  | Val.float q => Except.ok (q < (n : Rat))
  | _ => Except.error (PyErr.typeError "< not supported between these instances")

/-- Python `v > n` for an integer literal `n`. -/
def pyGtInt (v : Val) (n : Int) : Except PyErr Bool :=
  match v with
  | Val.int m => Except.ok (n < m)
  | Val.bool b => Except.ok (n < (if b then (1 : Int) else 0))
  | Val.float q => Except.ok ((n : Rat) < q)
  | _ => Except.error (PyErr.typeError "> not supported between these instances")

/-! ## Stack helpers (`core.py`, class `Stack`) -/

/-- Method `Stack.unary_op`: `self.top = func(self.top)`; only the
`IndexError` of the empty-deque access is converted to
`VmRuntimeError('Stack underflow')`; errors raised by `func` itself
propagate unchanged. -/
def unaryOp (f : Val → Except PyErr Val) : PyM Unit := fun st =>
  match st.stack with
  | [] => PyRes.exn (PyErr.vmRuntime "Stack underflow") st
  | t :: rest =>
      match f t with
      | Except.ok v => PyRes.ok () { st with stack := v :: rest }
      | Except.error e => PyRes.exn e st

/-- Method `Stack.binary_op`: pop twice, push `func(v2, v1)`; an `IndexError`
from either pop becomes `VmRuntimeError('Stack underflow')` (note that
a successful first pop is not undone); errors from `func` propagate
after both pops. -/
def binaryOp (f : Val → Val → Except PyErr Val) : PyM Unit := fun st =>
  match st.stack with
  | [] => PyRes.exn (PyErr.vmRuntime "Stack underflow") st
  | [_] => PyRes.exn (PyErr.vmRuntime "Stack underflow") { st with stack := [] }
  | v1 :: v2 :: rest =>
      match f v2 v1 with
      | Except.ok v => PyRes.ok () { st with stack := v :: rest }
      | Except.error e => PyRes.exn e { st with stack := rest }

/-- Push on the data stack. -/
def pushVal (v : Val) : PyM Unit :=
  modVM fun st => { st with stack := v :: st.stack }

/-- Method `VirtualMachine.enter`: push the IP on the return stack, reset it. -/
def enterVM : PyM Unit :=
  modVM fun st => { st with return_stack := st.ip :: st.return_stack, ip := 0 }

/-- Method `VirtualMachine.exit`: pop the return stack into the IP
(an `IndexError` when the return stack is empty). -/
def exitVM : PyM Unit := fun st =>
  match st.return_stack with
  | [] => PyRes.exn (PyErr.indexError "pop from an empty deque") st
  | n :: rest => PyRes.ok () { st with ip := n, return_stack := rest }

/-! ## Comment accumulation (`primitives.py`, `accum_until`) -/

/-- The scanning loop of `accum_until`: slide a window of the sentinel
length over the incoming characters; stop when the window equals the
sentinel or at end-of-stream (the `StopIteration` handler breaks).
Returns the accumulated characters, the unconsumed rest and whether
the sentinel was found. -/
def accumCore (sent : List (Option Char)) :
    List (Option Char) → List Char → List Char → List Char × List Char × Bool
  | _, acc, [] => (acc, [], false)
  | buff, acc, c :: rest =>
      let buff' := buff.tail ++ [some c]
      if buff' = sent then (acc, rest, true)
      else accumCore sent buff' (acc ++ [c]) rest

/-- The trailing `accum.pop()` loop of `accum_until`: drop `n`
characters from the end, raising the deque `IndexError` when the
accumulator runs out. -/
def popEnd : Nat → List Char → Except PyErr (List Char)
  | 0, l => Except.ok l
  | _ + 1, [] => Except.error (PyErr.indexError "pop from an empty deque")
  | n + 1, l => popEnd n l.dropLast

/-- Function `accum_until(vm, sentinel)`: accumulate stream characters into a
string until the sentinel appears; on end-of-stream the loop simply
breaks, after which `len(sentinel) - 1` characters are popped from the
end of the accumulator. -/
def accumUntil (cs : CharStream) (sentinel : String) :
    Except PyErr (String × CharStream) :=
  let unread := csUnread cs
  match accumCore (sentinel.data.map some)
      (List.replicate sentinel.data.length (none : Option Char)) [] unread with
  | (acc, rest, _) =>
      match popEnd (sentinel.data.length - 1) acc with
      | Except.error e => Except.error e
      | Except.ok acc' =>
          Except.ok (String.mk acc', { cs with pos := cs.pos + (unread.length - rest.length) })

/-- Python `str.strip()` (no argument: strip ASCII whitespace). -/
def pyStrip (s : String) : String :=
  String.mk (((s.data.dropWhile isPyWs).reverse.dropWhile isPyWs).reverse)

/-! ## The primitives -/

/-- Method `VirtualMachine.next_compiled_instr`: the code slot after the IP in
the word at the top of the frame stack; both the empty frame stack and
an out-of-range index become `VmRuntimeError`. -/
def nextCompiledInstr : PyM Val := fun st =>
  match st.frame_stack with
  | [] => PyRes.exn (PyErr.vmRuntime "End of word code on \"next\"") st
  | fid :: _ =>
      match pyGetI (codeOf st fid) (st.ip + 1) with
      | none => PyRes.exn (PyErr.vmRuntime "End of word code on \"next\"") st
      | some op => PyRes.ok op st

/-- Method `VirtualMachine.next_symbol`: next word of the stream, converting
`StopIteration` to `VmRuntimeError('End of stream')`. -/
def nextSymbol : PyM String := fun st =>
  match csNextWord st.stream with
  | (cs', none) => PyRes.exn (PyErr.vmRuntime "End of stream") { st with stream := cs' }
  | (cs', some symb) => PyRes.ok symb { st with stream := cs' }

/-- The `create` primitive: read a symbol, construct a fresh
`DefinedWord`, insert it into the dictionary and make it `last_word`
(the redefinition warning is a print, with no effect on the state). -/
def createPrim : PyM Unit := do
  let symb ← nextSymbol
  let st ← getVM
  let w : DefWord :=
    { symbol := symb, immediate := false, code := [], stack_effect := none,
      hidden := false, text_location := none }
  let id := st.words.length
  setVM { st with words := st.words ++ [w],
                  dictionary := dictInsert st.dictionary symb (WordRef.defined id),
                  last_word := some id }

/-- The `branch` primitive: consume the next compiled slot as the
offset and add `offset + 1` to the IP.  (A non-integer offset would
poison the IP in Python; it is reported as an immediate `TypeError`
here, a path no embedded program reaches.) -/
def branchPrim : PyM Unit := do
  let off ← nextCompiledInstr
  match off with
  | Val.int n => modVM fun st => { st with ip := st.ip + n + 1 }
  | Val.bool b => modVM fun st => { st with ip := st.ip + (if b then 1 else 0) + 1 }
  | _ => throwPy (PyErr.typeError "unsupported operand type(s) for +=")

/-- Execute one built-in word against the VM (`BuiltinWord.__call__`). -/
def execBuiltin : Builtin → PyM Unit
  | Builtin.neg => unaryOp pyNeg
  | Builtin.add => binaryOp pyAdd
  | Builtin.sub => binaryOp pySub
  | Builtin.mul => binaryOp pyMul
  | Builtin.dup => fun st =>
      match st.stack with
      | [] => PyRes.exn (PyErr.indexError "deque index out of range") st
      | t :: _ => PyRes.ok () { st with stack := t :: st.stack }
  | Builtin.drop => fun st =>
      match st.stack with
      | [] => PyRes.exn (PyErr.indexError "pop from an empty deque") st
      | _ :: rest => PyRes.ok () { st with stack := rest }
  | Builtin.swap => fun st =>
      match st.stack with
      | a :: b :: rest => PyRes.ok () { st with stack := b :: a :: rest }
      | _ => PyRes.exn (PyErr.indexError "deque index out of range") st
  | Builtin.over => fun st =>
      match st.stack with
      | a :: b :: rest => PyRes.ok () { st with stack := b :: a :: b :: rest }
      | _ => PyRes.exn (PyErr.indexError "deque index out of range") st
  | Builtin.rot => fun st =>
      match st.stack with
      | a :: b :: c :: rest => PyRes.ok () { st with stack := c :: a :: b :: rest }
      | _ => PyRes.exn (PyErr.indexError "deque index out of range") st
  | Builtin.zeroEq => fun st =>
      match st.stack with
      | [] => PyRes.exn (PyErr.indexError "deque index out of range") st
      | t :: _ => PyRes.ok () { st with stack := Val.bool (pyEqInt t 0) :: st.stack }
  | Builtin.zeroNe => fun st =>
      match st.stack with
      | [] => PyRes.exn (PyErr.indexError "deque index out of range") st
      | t :: _ => PyRes.ok () { st with stack := Val.bool (!pyEqInt t 0) :: st.stack }
  | Builtin.zeroLt => fun st =>
      match st.stack with
      | [] => PyRes.exn (PyErr.indexError "deque index out of range") st
      | t :: _ =>
          match pyLtInt t 0 with
          | Except.ok b => PyRes.ok () { st with stack := Val.bool b :: st.stack }
          | Except.error e => PyRes.exn e st
  | Builtin.zeroGt => fun st =>
      match st.stack with
      | [] => PyRes.exn (PyErr.indexError "deque index out of range") st
      | t :: _ =>
          match pyGtInt t 0 with
          | Except.ok b => PyRes.ok () { st with stack := Val.bool b :: st.stack }
          | Except.error e => PyRes.exn e st
  | Builtin.oneEq => fun st =>
      match st.stack with
      | [] => PyRes.exn (PyErr.indexError "deque index out of range") st
      | t :: _ => PyRes.ok () { st with stack := Val.bool (pyEqInt t 1) :: st.stack }
  | Builtin.exitB => fun st =>
      if st.return_stack.length = 0 then
        PyRes.exn (PyErr.vmRuntime "Error in \"exit\": cannot exit outside of a definition") st
      else PyRes.exn PyErr.wordExit st
  | Builtin.branchB => branchPrim
  | Builtin.zbranchB => fun st =>
      match st.stack with
      | [] => PyRes.exn (PyErr.indexError "pop from an empty deque") st
      | t :: rest =>
          if truthy t then PyRes.ok () { st with stack := rest, ip := st.ip + 1 }
          else branchPrim { st with stack := rest }
  | Builtin.lbrac => modVM fun st => { st with immediate := true }
  | Builtin.rbrac => modVM fun st => { st with immediate := false }
  | Builtin.commaB => fun st =>
      match st.stack with
      | [] => PyRes.exn (PyErr.indexError "pop from an empty deque") st
      | v :: rest =>
          let st := { st with stack := rest }
          match st.last_word with
          | none =>
              PyRes.exn (PyErr.attributeError "NoneType object has no attribute code") st
          | some id => (setWord id fun w => { w with code := w.code ++ [v] }) st
  | Builtin.colonB => do
      createPrim
      let st ← getVM
      match st.last_word with
      | none => throwPy (PyErr.attributeError "NoneType object has no attribute text_location")
      | some id => setWord id fun w => { w with text_location := st.stream.last_word_start }
      enterVM
      modVM fun st => { st with immediate := false }
  | Builtin.semicolonB => do
      exitVM
      modVM fun st => { st with immediate := true }
  | Builtin.createB => createPrim
  | Builtin.hiddenB => fun st =>
      match st.last_word with
      | none => PyRes.exn (PyErr.attributeError "NoneType object has no attribute hidden") st
      | some id => (setWord id fun w => { w with hidden := true }) st
  | Builtin.doesB => fun st =>
      match st.frame_stack with
      | [] => PyRes.exn (PyErr.indexError "deque index out of range") st
      | fid :: _ =>
          let ops := pySliceFrom (codeOf st fid) (st.ip + 1)
          match st.last_word with
          | none =>
              PyRes.exn (PyErr.attributeError "NoneType object has no attribute code") st
          | some id =>
              match (setWord id fun w => { w with code := w.code ++ ops }) st with
              | PyRes.ok _ st' => PyRes.exn PyErr.wordExit st'
              | PyRes.exn e st' => PyRes.exn e st'
  | Builtin.parenComment => fun st =>
      match accumUntil st.stream ")" with
      | Except.error e => PyRes.exn e st
      | Except.ok (text, cs') =>
          let st := { st with stream := cs' }
          match st.last_word with
          | none => PyRes.ok () st
          | some id =>
              match st.words.get? id with
              | none => PyRes.ok () st
              | some w =>
                  if w.code.isEmpty && w.stack_effect = none then
                    (setWord id fun w =>
                      { w with stack_effect := some ("( " ++ pyStrip text ++ " )") }) st
                  else PyRes.ok () st

/-- The immediate flags of the embedded built-ins, as registered with
`RegisterBuiltin` in `primitives.py`. -/
def builtinImmediate : Builtin → Bool
  | Builtin.lbrac => true
  | Builtin.semicolonB => true
  | Builtin.hiddenB => true
  | Builtin.parenComment => true
  | _ => false

/-- The primitives registry (`PRIMITIVES`), restricted to the embedded
built-ins; the `VirtualMachine` constructor copies it into the initial
dictionary. -/
def PRIMITIVES : List (String × WordRef) :=
  [("neg", WordRef.builtin Builtin.neg),
   ("+", WordRef.builtin Builtin.add),
   ("-", WordRef.builtin Builtin.sub),
   ("*", WordRef.builtin Builtin.mul),
   ("dup", WordRef.builtin Builtin.dup),
   ("drop", WordRef.builtin Builtin.drop),
   ("swap", WordRef.builtin Builtin.swap),
   ("over", WordRef.builtin Builtin.over),
   ("rot", WordRef.builtin Builtin.rot),
   ("0=", WordRef.builtin Builtin.zeroEq),
   ("0<>", WordRef.builtin Builtin.zeroNe),
   ("0<", WordRef.builtin Builtin.zeroLt),
   ("0>", WordRef.builtin Builtin.zeroGt),
   ("1=", WordRef.builtin Builtin.oneEq),
   ("exit", WordRef.builtin Builtin.exitB),
   ("branch", WordRef.builtin Builtin.branchB),
   ("0branch", WordRef.builtin Builtin.zbranchB),
   ("[", WordRef.builtin Builtin.lbrac),
   ("]", WordRef.builtin Builtin.rbrac),
   (",", WordRef.builtin Builtin.commaB),
   (":", WordRef.builtin Builtin.colonB),
   (";", WordRef.builtin Builtin.semicolonB),
   ("create", WordRef.builtin Builtin.createB),
   ("hidden", WordRef.builtin Builtin.hiddenB),
   ("(", WordRef.builtin Builtin.parenComment)]

/-! ## The interpreter -/

/-- Method `VirtualMachine.parse_symbol`: numeric literals take precedence;
otherwise the dictionary is consulted; otherwise
`VmRuntimeError('Undefined symbol: "…"')`. -/
def parse_symbol (d : List (String × WordRef)) (symb : String) : Except PyErr Val :=
  if is_numeric_literal symb then
    match convert_numeric_literal symb with
    | Except.ok nv => Except.ok (numValToVal nv)
    | Except.error e => Except.error e
  else
    match dictGet d symb with
    | some w => Except.ok (Val.word w)
    | none => Except.error (PyErr.vmRuntime ("Undefined symbol: \"" ++ symb ++ "\""))

/-- Python `hasattr(word, 'immediate') and word.immediate` for a parsed op:
only word objects carry the flag; a defined word's flag is read from
the arena. -/
def valImmediate (st : VMState) : Val → Bool
  | Val.word (WordRef.builtin b) => builtinImmediate b
  | Val.word (WordRef.defined id) => ((st.words.get? id).map DefWord.immediate).getD false
  | _ => false

/-- Method `VirtualMachine.compile`: advance the IP, then append the op to
`last_word.code` (an `AttributeError` when there is no last word —
note the IP increment already happened). -/
def compileOp (v : Val) : PyM Unit := fun st =>
  let st := { st with ip := st.ip + 1 }
  match st.last_word with
  | none => PyRes.exn (PyErr.attributeError "NoneType object has no attribute code") st
  | some id => (setWord id fun w => { w with code := w.code ++ [v] }) st

/-- Requests of the word-execution engine: `op v` is
`VirtualMachine.handle_op(v)`; `enterWord id` is
`DefinedWord.__call__`; `loop id` is its fetch–dispatch loop. -/
inductive ExecReq where
  | op (v : Val)
  | enterWord (id : Nat)
  | loop (id : Nat)

/-- The word-execution engine.  `handle_op` executes callables and
pushes plain values.  `DefinedWord.__call__` pushes the word on the
frame stack, enters, and runs the fetch–dispatch loop; only the code
fetch is guarded by the `except (IndexError, WordExit)` handler, so a
`WordExit` raised inside `handle_op` propagates out of the loop (and
out of `__call__`) instead of breaking it — the fetch itself can only
raise `IndexError`, upon which the loop breaks, the saved IP is
restored and the frame is popped.  Fuel makes the recursion
structural. -/
def exec : Nat → ExecReq → PyM Unit
  | 0, _ => throwPy PyErr.outOfFuel
  | n + 1, ExecReq.op v =>
      match v with
      | Val.word (WordRef.builtin b) => execBuiltin b
      | Val.word (WordRef.defined id) => exec n (ExecReq.enterWord id)
      | v => pushVal v
  | n + 1, ExecReq.enterWord id => fun st =>
      let st := { st with frame_stack := id :: st.frame_stack }
      let st := { st with return_stack := st.ip :: st.return_stack, ip := 0 }
      exec n (ExecReq.loop id) st
  | n + 1, ExecReq.loop id => fun st =>
      match pyGetI (codeOf st id) st.ip with
      | none =>
          match st.return_stack with
          | [] => PyRes.exn (PyErr.indexError "pop from an empty deque") st
          | r :: rs =>
              match st.frame_stack with
              | [] =>
                  PyRes.exn (PyErr.indexError "pop from an empty deque")
                    { st with ip := r, return_stack := rs }
              | _ :: fs =>
                  PyRes.ok () { st with ip := r, return_stack := rs, frame_stack := fs }
      | some op =>
          match exec n (ExecReq.op op) st with
          | PyRes.exn e st' => PyRes.exn e st'
          | PyRes.ok _ st' => exec n (ExecReq.loop id) { st' with ip := st'.ip + 1 }

/-- Outcome of one iteration of the `for symb in self.stream` loop of
`VirtualMachine.run`: the loop terminates normally (`StopIteration`
from the word iterator), continues with the next symbol, or an
exception escapes. -/
inductive StepRes where
  | stop (st : VMState)
  | cont (st : VMState)
  | fail (e : PyErr) (st : VMState)
  deriving DecidableEq, Repr

/-- One iteration of `VirtualMachine.run`: fetch the next symbol, parse
it, then execute it when in interpret mode or when it is an immediate
word, compile it otherwise. -/
def runStep (n : Nat) (st : VMState) : StepRes :=
  match csNextWord st.stream with
  | (cs', none) => StepRes.stop { st with stream := cs' }
  | (cs', some symb) =>
      let st := { st with stream := cs' }
      match parse_symbol st.dictionary symb with
      | Except.error e => StepRes.fail e st
      | Except.ok w =>
          let act : PyM Unit :=
            if st.immediate then exec n (ExecReq.op w)
            else if valImmediate st w then exec n (ExecReq.op w)
            else compileOp w
          match act st with
          | PyRes.ok _ st' => StepRes.cont st'
          | PyRes.exn e st' => StepRes.fail e st'

/-- Method `VirtualMachine.run`: iterate the word stream to exhaustion. -/
def runLoop : Nat → PyM Unit
  | 0 => throwPy PyErr.outOfFuel
  | n + 1 => fun st =>
      match runStep n st with
      | StepRes.stop st' => PyRes.ok () st'
      | StepRes.cont st' => runLoop n st'
      | StepRes.fail e st' => PyRes.exn e st'

/-- The state built by `VirtualMachine.__init__(stream)`. -/
def initState (input : String) : VMState :=
  { stream := { content := input.data, pos := 0, last_word_start := none },
    ip := 0, stack := [], return_stack := [], frame_stack := [],
    words := [], dictionary := PRIMITIVES, heap := [],
    last_word := none, immediate := true }

/-- A `VirtualMachine` object: its mutable state plus the `backup`
slot (a deep-copied snapshot). -/
structure PyVM where
  state : VMState
  backup : Option VMState
  deriving DecidableEq, Repr

/-- Constructor `VirtualMachine(stream)`: fresh state whose backup is a snapshot of
itself. -/
def initVM (input : String) : PyVM :=
  { state := initState input, backup := some (initState input) }

/-- Method `make_backup`: deep-copy the current state into the backup slot. -/
def makeBackup (vm : PyVM) : PyVM :=
  { vm with backup := some vm.state }

/-- Method `revert`: the method body is `self = deepcopy(self.backup)`, which
rebinds the local name `self` and mutates nothing — the VM object is
unchanged. -/
def revert (vm : PyVM) : PyVM :=
  vm

/-- Method `read_input(text)`: `make_backup()` then `stream.write(text)`. -/
def readInput (vm : PyVM) (text : String) : PyVM :=
  let vm := makeBackup vm
  { vm with state := { vm.state with stream := csWrite vm.state.stream text } }

/-- Run the VM's `run()` with the given fuel, keeping the state the
object holds afterwards whether or not an exception escaped (as the
REPL does). -/
def runVM (fuel : Nat) (vm : PyVM) : PyVM :=
  match runLoop fuel vm.state with
  | PyRes.ok _ st => { vm with state := st }
  | PyRes.exn _ st => { vm with state := st }

/-! ## Observation helpers for the theorems -/

/-- Final state of running a program on a fresh VM, when `run()`
returns normally. -/
def finalState (fuel : Nat) (input : String) : Option VMState :=
  match runLoop fuel (initState input) with
  | PyRes.ok _ st => some st
  | PyRes.exn _ _ => none

/-- Final data stack (top first) of a successful run. -/
def finalStack (fuel : Nat) (input : String) : Option (List Val) :=
  (finalState fuel input).map VMState.stack

/-- The exception escaping `run()` together with the data, return and
frame stacks at that moment, if the run raised. -/
def crashInfo (fuel : Nat) (input : String) :
    Option (PyErr × List Val × List Int × List Nat) :=
  match runLoop fuel (initState input) with
  | PyRes.ok _ _ => none
  | PyRes.exn e st => some (e, st.stack, st.return_stack, st.frame_stack)

/-- A fresh VM state over an empty stream whose data stack is `s`. -/
def stateWithStack (s : List Val) : VMState :=
  { initState "" with stack := s }

/-- Run one built-in against a given data stack and observe the
resulting stack or the exception raised. -/
def primStack (b : Builtin) (s : List Val) : Except PyErr (List Val) :=
  match execBuiltin b (stateWithStack s) with
  | PyRes.ok _ st => Except.ok st.stack
  | PyRes.exn e _ => Except.error e

/-- The exception produced by a result, if any. -/
def raisedErr {α : Type} : PyRes α → Option PyErr
  | PyRes.ok _ _ => none
  | PyRes.exn e _ => some e

/-- The merge step of `VirtualMachine.import_module`: filter the
sub-VM's dictionary down to the entries whose word has a `hidden`
attribute that is false (`hasattr(v, 'hidden') and not v.hidden` —
built-ins have no such attribute), then `dict.update` the importer's
dictionary with them. -/
def pubFilter (modVm : VMState) (kv : String × WordRef) : Bool :=
  match kv.2 with
  | WordRef.builtin _ => false
  | WordRef.defined id =>
      match modVm.words.get? id with
      | some w => !w.hidden
      | none => false

/-- The comprehension itself. -/
def publicWords (modVm : VMState) : List (String × WordRef) :=
  modVm.dictionary.filter (pubFilter modVm)

/-- Statement `self.dictionary.update(public_words)` of `import_module`. -/
def importMerge (selfDict : List (String × WordRef)) (modVm : VMState) :
    List (String × WordRef) :=
  dictUpdate selfDict (publicWords modVm)

/-- A concrete sub-VM as produced by running a module that defines a
public word `pub` and a hidden word `priv` (used to instantiate the
import-merge properties). -/
def c3modVm : VMState :=
  { initState "" with
      words := [{ symbol := "pub", immediate := false, code := [Val.int 1],
                  stack_effect := none, hidden := false, text_location := some 1 },
                { symbol := "priv", immediate := false, code := [Val.int 2],
                  stack_effect := none, hidden := true, text_location := some 9 }],
      dictionary := [("pub", WordRef.defined 0), ("priv", WordRef.defined 1),
                     ("neg", WordRef.builtin Builtin.neg)] }

/-! ## Concrete intermediate states of the end-to-end runs

The interpreter is executed one `runStep` (and, inside a defined word,
one fetch–dispatch iteration) at a time, through explicitly spelled-out
intermediate states; each small step is checked by `decide` and the
steps are chained with the generic unfolding lemmas below. -/

/-- The conditional-branch example program. -/
def c4Input : String := ": abs? dup 0< 0branch 2 neg ; -7 abs?"

/-- The compiled body of `abs?`. -/
def c4code : List Val :=
  [Val.word (WordRef.builtin Builtin.dup), Val.word (WordRef.builtin Builtin.zeroLt),
   Val.word (WordRef.builtin Builtin.zbranchB), Val.int 2,
   Val.word (WordRef.builtin Builtin.neg)]

/-- Shape of every intermediate state of the `c4Input` run. -/
def c4state (pos lws : Nat) (ip : Int) (stk : List Val) (rs : List Int) (fs : List Nat)
    (imm : Bool) (code : List Val) : VMState :=
  { stream := { content := c4Input.data, pos := pos, last_word_start := some lws },
    ip := ip, stack := stk, return_stack := rs, frame_stack := fs,
    words := [{ symbol := "abs?", immediate := false, code := code, stack_effect := none,
                hidden := false, text_location := some 3 }],
    dictionary := dictInsert PRIMITIVES "abs?" (WordRef.defined 0),
    heap := [], last_word := some 0, immediate := imm }

/-- The immediate-word example program. -/
def c8Input : String := ": greet [ 41 1 + ] , ; greet"

/-- Shape of every intermediate state of the `c8Input` run. -/
def c8state (pos lws : Nat) (ip : Int) (stk : List Val) (rs : List Int) (fs : List Nat)
    (imm : Bool) (code : List Val) : VMState :=
  { stream := { content := c8Input.data, pos := pos, last_word_start := some lws },
    ip := ip, stack := stk, return_stack := rs, frame_stack := fs,
    words := [{ symbol := "greet", immediate := false, code := code, stack_effect := none,
                hidden := false, text_location := some 3 }],
    dictionary := dictInsert PRIMITIVES "greet" (WordRef.defined 0),
    heap := [], last_word := some 0, immediate := imm }

/-- The word-exit example program. -/
def c2Input : String := ": f 1 exit 2 ; f"

/-- The compiled body of `f`. -/
def c2code : List Val :=
  [Val.int 1, Val.word (WordRef.builtin Builtin.exitB), Val.int 2]

/-- Shape of every intermediate state of the `c2Input` run. -/
def c2state (pos lws : Nat) (ip : Int) (stk : List Val) (rs : List Int) (fs : List Nat)
    (imm : Bool) (code : List Val) : VMState :=
  { stream := { content := c2Input.data, pos := pos, last_word_start := some lws },
    ip := ip, stack := stk, return_stack := rs, frame_stack := fs,
    words := [{ symbol := "f", immediate := false, code := code, stack_effect := none,
                hidden := false, text_location := some 3 }],
    dictionary := dictInsert PRIMITIVES "f" (WordRef.defined 0),
    heap := [], last_word := some 0, immediate := imm }

/-! ## Generic single-step unfolding lemmas -/

theorem runLoop_cont (n : Nat) (st st' : VMState) (h : runStep n st = StepRes.cont st') :
    runLoop (n + 1) st = runLoop n st' := by
  simp [runLoop, h]

theorem runLoop_stop (n : Nat) (st st' : VMState) (h : runStep n st = StepRes.stop st') :
    runLoop (n + 1) st = PyRes.ok () st' := by
  simp [runLoop, h]

theorem runLoop_fail (n : Nat) (st st' : VMState) (e : PyErr)
    (h : runStep n st = StepRes.fail e st') :
    runLoop (n + 1) st = PyRes.exn e st' := by
  simp [runLoop, h]

theorem runStep_exec_ok (n : Nat) (st st2 : VMState) (cs' : CharStream) (symb : String)
    (w : Val) (h1 : csNextWord st.stream = (cs', some symb))
    (h2 : parse_symbol st.dictionary symb = Except.ok w)
    (h3 : st.immediate = true)
    (h4 : exec n (ExecReq.op w) { st with stream := cs' } = PyRes.ok () st2) :
    runStep n st = StepRes.cont st2 := by
  rw [h3] at h4
  simp [runStep, h1, h2, h3, h4]

theorem runStep_exec_exn (n : Nat) (st st2 : VMState) (cs' : CharStream) (symb : String)
    (w : Val) (e : PyErr) (h1 : csNextWord st.stream = (cs', some symb))
    (h2 : parse_symbol st.dictionary symb = Except.ok w)
    (h3 : st.immediate = true)
    (h4 : exec n (ExecReq.op w) { st with stream := cs' } = PyRes.exn e st2) :
    runStep n st = StepRes.fail e st2 := by
  rw [h3] at h4
  simp [runStep, h1, h2, h3, h4]

theorem exec_enterWord (n : Nat) (id : Nat) (st : VMState) :
    exec (n + 2) (ExecReq.op (Val.word (WordRef.defined id))) st =
      exec n (ExecReq.loop id)
        { st with frame_stack := id :: st.frame_stack,
                  return_stack := st.ip :: st.return_stack, ip := 0 } := by
  simp [exec]

theorem exec_loop_cont (n : Nat) (id : Nat) (st st2 : VMState) (op : Val)
    (h1 : pyGetI (codeOf st id) st.ip = some op)
    (h2 : exec n (ExecReq.op op) st = PyRes.ok () st2) :
    exec (n + 1) (ExecReq.loop id) st = exec n (ExecReq.loop id) { st2 with ip := st2.ip + 1 } := by
  simp [exec, h1, h2]

theorem exec_loop_exn (n : Nat) (id : Nat) (st st2 : VMState) (op : Val) (e : PyErr)
    (h1 : pyGetI (codeOf st id) st.ip = some op)
    (h2 : exec n (ExecReq.op op) st = PyRes.exn e st2) :
    exec (n + 1) (ExecReq.loop id) st = PyRes.exn e st2 := by
  simp [exec, h1, h2]

theorem exec_loop_break (n : Nat) (id : Nat) (st : VMState) (r : Int) (rs : List Int)
    (f : Nat) (fs : List Nat)
    (h1 : pyGetI (codeOf st id) st.ip = none)
    (h2 : st.return_stack = r :: rs)
    (h3 : st.frame_stack = f :: fs) :
    exec (n + 1) (ExecReq.loop id) st =
      PyRes.ok () { st with ip := r, return_stack := rs, frame_stack := fs } := by
  simp [exec, h1, h2, h3]

/-! ## The `c4Input` run -/

theorem c4_run :
    runLoop 20 (initState c4Input) =
      PyRes.ok () (c4state 37 34 0 [Val.int 7, Val.int (-7)] [] [] true c4code) := by
  have hw : exec 11 (ExecReq.op (Val.word (WordRef.defined 0)))
      (c4state 37 34 0 [Val.int (-7)] [] [] true c4code) =
      PyRes.ok () (c4state 37 34 0 [Val.int 7, Val.int (-7)] [] [] true c4code) := by
    have i0 : exec 11 (ExecReq.op (Val.word (WordRef.defined 0)))
        (c4state 37 34 0 [Val.int (-7)] [] [] true c4code) =
        exec 9 (ExecReq.loop 0) (c4state 37 34 0 [Val.int (-7)] [0] [0] true c4code) :=
      exec_enterWord 9 0 (c4state 37 34 0 [Val.int (-7)] [] [] true c4code)
    have i1 : exec 9 (ExecReq.loop 0) (c4state 37 34 0 [Val.int (-7)] [0] [0] true c4code) =
        exec 8 (ExecReq.loop 0)
          (c4state 37 34 1 [Val.int (-7), Val.int (-7)] [0] [0] true c4code) :=
      exec_loop_cont 8 0 (c4state 37 34 0 [Val.int (-7)] [0] [0] true c4code)
        (c4state 37 34 0 [Val.int (-7), Val.int (-7)] [0] [0] true c4code)
        (Val.word (WordRef.builtin Builtin.dup)) (by decide) (by decide)
    have i2 : exec 8 (ExecReq.loop 0)
        (c4state 37 34 1 [Val.int (-7), Val.int (-7)] [0] [0] true c4code) =
        exec 7 (ExecReq.loop 0)
          (c4state 37 34 2 [Val.bool true, Val.int (-7), Val.int (-7)] [0] [0] true c4code) :=
      exec_loop_cont 7 0 (c4state 37 34 1 [Val.int (-7), Val.int (-7)] [0] [0] true c4code)
        (c4state 37 34 1 [Val.bool true, Val.int (-7), Val.int (-7)] [0] [0] true c4code)
        (Val.word (WordRef.builtin Builtin.zeroLt)) (by decide) (by decide)
    have i3 : exec 7 (ExecReq.loop 0)
        (c4state 37 34 2 [Val.bool true, Val.int (-7), Val.int (-7)] [0] [0] true c4code) =
        exec 6 (ExecReq.loop 0)
          (c4state 37 34 4 [Val.int (-7), Val.int (-7)] [0] [0] true c4code) :=
      exec_loop_cont 6 0
        (c4state 37 34 2 [Val.bool true, Val.int (-7), Val.int (-7)] [0] [0] true c4code)
        (c4state 37 34 3 [Val.int (-7), Val.int (-7)] [0] [0] true c4code)
        (Val.word (WordRef.builtin Builtin.zbranchB)) (by decide) (by decide)
    have i4 : exec 6 (ExecReq.loop 0)
        (c4state 37 34 4 [Val.int (-7), Val.int (-7)] [0] [0] true c4code) =
        exec 5 (ExecReq.loop 0)
          (c4state 37 34 5 [Val.int 7, Val.int (-7)] [0] [0] true c4code) :=
      exec_loop_cont 5 0 (c4state 37 34 4 [Val.int (-7), Val.int (-7)] [0] [0] true c4code)
        (c4state 37 34 4 [Val.int 7, Val.int (-7)] [0] [0] true c4code)
        (Val.word (WordRef.builtin Builtin.neg)) (by decide) (by decide)
    have i5 : exec 5 (ExecReq.loop 0)
        (c4state 37 34 5 [Val.int 7, Val.int (-7)] [0] [0] true c4code) =
        PyRes.ok () (c4state 37 34 0 [Val.int 7, Val.int (-7)] [] [] true c4code) :=
      exec_loop_break 4 0 (c4state 37 34 5 [Val.int 7, Val.int (-7)] [0] [0] true c4code)
        0 [] 0 [] (by decide) (by decide) (by decide)
    exact i0.trans (i1.trans (i2.trans (i3.trans (i4.trans i5))))
  have g9 : runStep 11 (c4state 33 31 0 [Val.int (-7)] [] [] true c4code) =
      StepRes.cont (c4state 37 34 0 [Val.int 7, Val.int (-7)] [] [] true c4code) :=
    runStep_exec_ok 11 (c4state 33 31 0 [Val.int (-7)] [] [] true c4code)
      (c4state 37 34 0 [Val.int 7, Val.int (-7)] [] [] true c4code)
      { content := c4Input.data, pos := 37, last_word_start := some 34 } "abs?"
      (Val.word (WordRef.defined 0)) (by decide) (by decide) (by decide) hw
  have g1 : runStep 19 (initState c4Input) =
      StepRes.cont (c4state 7 3 0 [] [0] [] false []) := by decide
  have g2 : runStep 18 (c4state 7 3 0 [] [0] [] false []) =
      StepRes.cont (c4state 11 8 1 [] [0] [] false (c4code.take 1)) := by decide
  have g3 : runStep 17 (c4state 11 8 1 [] [0] [] false (c4code.take 1)) =
      StepRes.cont (c4state 14 12 2 [] [0] [] false (c4code.take 2)) := by decide
  have g4 : runStep 16 (c4state 14 12 2 [] [0] [] false (c4code.take 2)) =
      StepRes.cont (c4state 22 15 3 [] [0] [] false (c4code.take 3)) := by decide
  have g5 : runStep 15 (c4state 22 15 3 [] [0] [] false (c4code.take 3)) =
      StepRes.cont (c4state 24 23 4 [] [0] [] false (c4code.take 4)) := by decide
  have g6 : runStep 14 (c4state 24 23 4 [] [0] [] false (c4code.take 4)) =
      StepRes.cont (c4state 28 25 5 [] [0] [] false c4code) := by decide
  have g7 : runStep 13 (c4state 28 25 5 [] [0] [] false c4code) =
      StepRes.cont (c4state 30 29 0 [] [] [] true c4code) := by decide
  have g8 : runStep 12 (c4state 30 29 0 [] [] [] true c4code) =
      StepRes.cont (c4state 33 31 0 [Val.int (-7)] [] [] true c4code) := by decide
  have g10 : runStep 10 (c4state 37 34 0 [Val.int 7, Val.int (-7)] [] [] true c4code) =
      StepRes.stop (c4state 37 34 0 [Val.int 7, Val.int (-7)] [] [] true c4code) := by decide
  exact (runLoop_cont 19 _ _ g1).trans ((runLoop_cont 18 _ _ g2).trans
    ((runLoop_cont 17 _ _ g3).trans ((runLoop_cont 16 _ _ g4).trans
    ((runLoop_cont 15 _ _ g5).trans ((runLoop_cont 14 _ _ g6).trans
    ((runLoop_cont 13 _ _ g7).trans ((runLoop_cont 12 _ _ g8).trans
    ((runLoop_cont 11 _ _ g9).trans (runLoop_stop 10 _ _ g10)))))))))

/-! ## The `c8Input` run -/

theorem c8_run :
    runLoop 20 (initState c8Input) =
      PyRes.ok () (c8state 28 24 0 [Val.int 42] [] [] true
        [Val.word (WordRef.builtin Builtin.commaB), Val.int 42]) := by
  have hw : exec 11 (ExecReq.op (Val.word (WordRef.defined 0)))
      (c8state 28 24 0 [Val.int 42] [] [] true [Val.word (WordRef.builtin Builtin.commaB)]) =
      PyRes.ok () (c8state 28 24 0 [Val.int 42] [] [] true
        [Val.word (WordRef.builtin Builtin.commaB), Val.int 42]) := by
    have i0 : exec 11 (ExecReq.op (Val.word (WordRef.defined 0)))
        (c8state 28 24 0 [Val.int 42] [] [] true
          [Val.word (WordRef.builtin Builtin.commaB)]) =
        exec 9 (ExecReq.loop 0) (c8state 28 24 0 [Val.int 42] [0] [0] true
          [Val.word (WordRef.builtin Builtin.commaB)]) :=
      exec_enterWord 9 0 (c8state 28 24 0 [Val.int 42] [] [] true
        [Val.word (WordRef.builtin Builtin.commaB)])
    have i1 : exec 9 (ExecReq.loop 0) (c8state 28 24 0 [Val.int 42] [0] [0] true
        [Val.word (WordRef.builtin Builtin.commaB)]) =
        exec 8 (ExecReq.loop 0) (c8state 28 24 1 [] [0] [0] true
          [Val.word (WordRef.builtin Builtin.commaB), Val.int 42]) :=
      exec_loop_cont 8 0
        (c8state 28 24 0 [Val.int 42] [0] [0] true
          [Val.word (WordRef.builtin Builtin.commaB)])
        (c8state 28 24 0 [] [0] [0] true
          [Val.word (WordRef.builtin Builtin.commaB), Val.int 42])
        (Val.word (WordRef.builtin Builtin.commaB)) (by decide) (by decide)
    have i2 : exec 8 (ExecReq.loop 0) (c8state 28 24 1 [] [0] [0] true
        [Val.word (WordRef.builtin Builtin.commaB), Val.int 42]) =
        exec 7 (ExecReq.loop 0) (c8state 28 24 2 [Val.int 42] [0] [0] true
          [Val.word (WordRef.builtin Builtin.commaB), Val.int 42]) :=
      exec_loop_cont 7 0
        (c8state 28 24 1 [] [0] [0] true
          [Val.word (WordRef.builtin Builtin.commaB), Val.int 42])
        (c8state 28 24 1 [Val.int 42] [0] [0] true
          [Val.word (WordRef.builtin Builtin.commaB), Val.int 42])
        (Val.int 42) (by decide) (by decide)
    have i3 : exec 7 (ExecReq.loop 0) (c8state 28 24 2 [Val.int 42] [0] [0] true
        [Val.word (WordRef.builtin Builtin.commaB), Val.int 42]) =
        PyRes.ok () (c8state 28 24 0 [Val.int 42] [] [] true
          [Val.word (WordRef.builtin Builtin.commaB), Val.int 42]) :=
      exec_loop_break 6 0
        (c8state 28 24 2 [Val.int 42] [0] [0] true
          [Val.word (WordRef.builtin Builtin.commaB), Val.int 42])
        0 [] 0 [] (by decide) (by decide) (by decide)
    exact i0.trans (i1.trans (i2.trans i3))
  have g9 : runStep 11 (c8state 23 22 0 [Val.int 42] [] [] true
      [Val.word (WordRef.builtin Builtin.commaB)]) =
      StepRes.cont (c8state 28 24 0 [Val.int 42] [] [] true
        [Val.word (WordRef.builtin Builtin.commaB), Val.int 42]) :=
    runStep_exec_ok 11
      (c8state 23 22 0 [Val.int 42] [] [] true [Val.word (WordRef.builtin Builtin.commaB)])
      (c8state 28 24 0 [Val.int 42] [] [] true
        [Val.word (WordRef.builtin Builtin.commaB), Val.int 42])
      { content := c8Input.data, pos := 28, last_word_start := some 24 } "greet"
      (Val.word (WordRef.defined 0)) (by decide) (by decide) (by decide) hw
  have g1 : runStep 19 (initState c8Input) =
      StepRes.cont (c8state 8 3 0 [] [0] [] false []) := by decide
  have g2 : runStep 18 (c8state 8 3 0 [] [0] [] false []) =
      StepRes.cont (c8state 10 9 0 [] [0] [] true []) := by decide
  have g3 : runStep 17 (c8state 10 9 0 [] [0] [] true []) =
      StepRes.cont (c8state 13 11 0 [Val.int 41] [0] [] true []) := by decide
  have g4 : runStep 16 (c8state 13 11 0 [Val.int 41] [0] [] true []) =
      StepRes.cont (c8state 15 14 0 [Val.int 1, Val.int 41] [0] [] true []) := by decide
  have g5 : runStep 15 (c8state 15 14 0 [Val.int 1, Val.int 41] [0] [] true []) =
      StepRes.cont (c8state 17 16 0 [Val.int 42] [0] [] true []) := by decide
  have g6 : runStep 14 (c8state 17 16 0 [Val.int 42] [0] [] true []) =
      StepRes.cont (c8state 19 18 0 [Val.int 42] [0] [] false []) := by decide
  have g7 : runStep 13 (c8state 19 18 0 [Val.int 42] [0] [] false []) =
      StepRes.cont (c8state 21 20 1 [Val.int 42] [0] [] false
        [Val.word (WordRef.builtin Builtin.commaB)]) := by decide
  have g8 : runStep 12 (c8state 21 20 1 [Val.int 42] [0] [] false
      [Val.word (WordRef.builtin Builtin.commaB)]) =
      StepRes.cont (c8state 23 22 0 [Val.int 42] [] [] true
        [Val.word (WordRef.builtin Builtin.commaB)]) := by decide
  have g10 : runStep 10 (c8state 28 24 0 [Val.int 42] [] [] true
      [Val.word (WordRef.builtin Builtin.commaB), Val.int 42]) =
      StepRes.stop (c8state 28 24 0 [Val.int 42] [] [] true
        [Val.word (WordRef.builtin Builtin.commaB), Val.int 42]) := by decide
  exact (runLoop_cont 19 _ _ g1).trans ((runLoop_cont 18 _ _ g2).trans
    ((runLoop_cont 17 _ _ g3).trans ((runLoop_cont 16 _ _ g4).trans
    ((runLoop_cont 15 _ _ g5).trans ((runLoop_cont 14 _ _ g6).trans
    ((runLoop_cont 13 _ _ g7).trans ((runLoop_cont 12 _ _ g8).trans
    ((runLoop_cont 11 _ _ g9).trans (runLoop_stop 10 _ _ g10)))))))))

/-! ## The `c2Input` run -/

theorem c2_run :
    runLoop 20 (initState c2Input) =
      PyRes.exn PyErr.wordExit (c2state 16 16 1 [Val.int 1] [0] [0] true c2code) := by
  have hw : exec 14 (ExecReq.op (Val.word (WordRef.defined 0)))
      (c2state 16 16 0 [] [] [] true c2code) =
      PyRes.exn PyErr.wordExit (c2state 16 16 1 [Val.int 1] [0] [0] true c2code) := by
    have i0 : exec 14 (ExecReq.op (Val.word (WordRef.defined 0)))
        (c2state 16 16 0 [] [] [] true c2code) =
        exec 12 (ExecReq.loop 0) (c2state 16 16 0 [] [0] [0] true c2code) :=
      exec_enterWord 12 0 (c2state 16 16 0 [] [] [] true c2code)
    have i1 : exec 12 (ExecReq.loop 0) (c2state 16 16 0 [] [0] [0] true c2code) =
        exec 11 (ExecReq.loop 0) (c2state 16 16 1 [Val.int 1] [0] [0] true c2code) :=
      exec_loop_cont 11 0 (c2state 16 16 0 [] [0] [0] true c2code)
        (c2state 16 16 0 [Val.int 1] [0] [0] true c2code)
        (Val.int 1) (by decide) (by decide)
    have i2 : exec 11 (ExecReq.loop 0) (c2state 16 16 1 [Val.int 1] [0] [0] true c2code) =
        PyRes.exn PyErr.wordExit (c2state 16 16 1 [Val.int 1] [0] [0] true c2code) :=
      exec_loop_exn 10 0 (c2state 16 16 1 [Val.int 1] [0] [0] true c2code)
        (c2state 16 16 1 [Val.int 1] [0] [0] true c2code)
        (Val.word (WordRef.builtin Builtin.exitB)) PyErr.wordExit (by decide) (by decide)
    exact i0.trans (i1.trans i2)
  have g6 : runStep 14 (c2state 15 14 0 [] [] [] true c2code) =
      StepRes.fail PyErr.wordExit (c2state 16 16 1 [Val.int 1] [0] [0] true c2code) :=
    runStep_exec_exn 14 (c2state 15 14 0 [] [] [] true c2code)
      (c2state 16 16 1 [Val.int 1] [0] [0] true c2code)
      { content := c2Input.data, pos := 16, last_word_start := some 16 } "f"
      (Val.word (WordRef.defined 0)) PyErr.wordExit (by decide) (by decide) (by decide) hw
  have g1 : runStep 19 (initState c2Input) =
      StepRes.cont (c2state 4 3 0 [] [0] [] false []) := by decide
  have g2 : runStep 18 (c2state 4 3 0 [] [0] [] false []) =
      StepRes.cont (c2state 6 5 1 [] [0] [] false (c2code.take 1)) := by decide
  have g3 : runStep 17 (c2state 6 5 1 [] [0] [] false (c2code.take 1)) =
      StepRes.cont (c2state 11 7 2 [] [0] [] false (c2code.take 2)) := by decide
  have g4 : runStep 16 (c2state 11 7 2 [] [0] [] false (c2code.take 2)) =
      StepRes.cont (c2state 13 12 3 [] [0] [] false c2code) := by decide
  have g5 : runStep 15 (c2state 13 12 3 [] [0] [] false c2code) =
      StepRes.cont (c2state 15 14 0 [] [] [] true c2code) := by decide
  exact (runLoop_cont 19 _ _ g1).trans ((runLoop_cont 18 _ _ g2).trans
    ((runLoop_cont 17 _ _ g3).trans ((runLoop_cont 16 _ _ g4).trans
    ((runLoop_cont 15 _ _ g5).trans (runLoop_fail 14 _ _ _ g6)))))

/-! ## Claim theorems -/

/-- C4 (counterexample): the claim states that running
`: abs? dup 0< 0branch 2 neg ; -7 abs?` on a fresh VM leaves the data
stack equal to `[7]`; on the code the run terminates with the deeper
stack `[-7, 7]` (top first: `[7, -7]`), because `0<` pushes the flag
without consuming the `dup`-ed copy of `-7`. -/
theorem c4_abs_example_counterexample :
    finalStack 20 c4Input ≠ some [Val.int 7] := by
  have h : finalStack 20 c4Input = some [Val.int 7, Val.int (-7)] := by
    simp [finalStack, finalState, c4_run, c4state]
  rw [h]
  decide

/-- C4 (amended): running `: abs? dup 0< 0branch 2 neg ; -7 abs?` on a
fresh VM terminates with data stack `[-7, 7]` (top first: `[7, -7]`):
`0<` pushes the truth of `top < 0` without consuming the top, `0branch`
pops that flag and — the flag being truthy — skips over the compiled
offset slot `2`, and `neg` negates only the top copy. -/
theorem c4_abs_example_amended :
    finalStack 20 c4Input = some [Val.int 7, Val.int (-7)] := by
  simp [finalStack, finalState, c4_run, c4state]

/-- C8: running `: greet [ 41 1 + ] , ; greet` on a fresh VM terminates
with data stack `[42]`: `[` switches to interpret mode inside the
definition so `41 1 +` executes immediately, `]` switches back to
compile mode, `,` is compiled into `greet`, and when `greet` runs the
`,` pops 42 and appends it to `greet`'s own code vector, where it is
then executed as a literal and pushed. -/
theorem c8_bracket_comma_literal :
    finalStack 20 c8Input = some [Val.int 42] ∧
    (finalState 20 c8Input).map (fun st => st.words.map DefWord.code) =
      some [[Val.word (WordRef.builtin Builtin.commaB), Val.int 42]] := by
  constructor
  · simp [finalStack, finalState, c8_run, c8state]
  · simp [finalState, c8_run, c8state]

/-- C2 (code bug): the claim says the word-exit signal raised by `exit`
terminates exactly one defined-word invocation (popping the saved IP
and the frame) and never unwinds the whole interpreter.  In the code,
`DefinedWord.__call__` guards only the code fetch with
`except (IndexError, WordExit)` while `handle_op` — where `exit`
actually raises — sits outside the `try`, so on
`: f 1 exit 2 ; f` the `WordExit` escapes `run()` entirely, with the
saved IP still on the return stack (`[0]`) and the frame still on the
frame stack (`[f]`). -/
theorem c2_word_exit_escapes_interpreter :
    crashInfo 20 c2Input = some (PyErr.wordExit, [Val.int 1], [0], [0]) := by
  simp [crashInfo, c2_run, c2state]

/-- C1 (code bug): the claim says `make_backup(); read_input(L); run();
revert()` restores the pre-`read_input` state.  `revert` is
`self = deepcopy(self.backup)`, which rebinds a local name and mutates
nothing; for the line `"5"` the stack after the sequence is `[5]`,
while the pre-`read_input` snapshot (held in the backup slot) has the
empty stack. -/
theorem c1_revert_does_not_restore :
    (revert (runVM 20 (readInput (makeBackup (initVM "")) "5"))).state.stack =
      [Val.int 5] ∧
    (readInput (makeBackup (initVM "")) "5").backup = some (initState "") ∧
    (initState "").stack = [] := by
  decide

/-! ## Dictionary lemmas for the import merge -/

theorem dictGet_insert_self (d : List (String × WordRef)) (k : String) (v : WordRef) :
    dictGet (dictInsert d k v) k = some v := by
  induction d with
  | nil => simp [dictInsert, dictGet]
  | cons kv rest ih =>
      obtain ⟨k', v'⟩ := kv
      by_cases h : k' = k
      · simp [dictInsert, h, dictGet]
      · simp [dictInsert, h, dictGet, ih]

theorem dictGet_insert_other (d : List (String × WordRef)) (k k' : String) (v : WordRef)
    (h : k' ≠ k) : dictGet (dictInsert d k' v) k = dictGet d k := by
  induction d with
  | nil => simp [dictInsert, dictGet, h]
  | cons kv rest ih =>
      obtain ⟨k0, v0⟩ := kv
      by_cases h0 : k0 = k'
      · subst h0
        simp [dictInsert, dictGet, h]
      · by_cases h1 : k0 = k
        · subst h1
          simp [dictInsert, h0, dictGet]
        · simp [dictInsert, h0, dictGet, h1, ih]

theorem dictGet_eq_none_of_not_mem (l : List (String × WordRef)) (k : String)
    (h : k ∉ l.map Prod.fst) : dictGet l k = none := by
  induction l with
  | nil => simp [dictGet]
  | cons kv rest ih =>
      obtain ⟨k0, v0⟩ := kv
      simp only [List.map_cons, List.mem_cons] at h
      push_neg at h
      have hk : k0 ≠ k := fun hh => h.1 hh.symm
      simp [dictGet, hk, ih h.2]

theorem dictGet_update_absent (other d : List (String × WordRef)) (k : String)
    (h : dictGet other k = none) : dictGet (dictUpdate d other) k = dictGet d k := by
  induction other generalizing d with
  | nil => simp [dictUpdate]
  | cons kv rest ih =>
      obtain ⟨k0, v0⟩ := kv
      by_cases hk : k0 = k
      · simp [dictGet, hk] at h
      · simp only [dictGet, hk, if_false] at h
        have : dictUpdate d ((k0, v0) :: rest) = dictUpdate (dictInsert d k0 v0) rest := by
          simp [dictUpdate]
        rw [this, ih (dictInsert d k0 v0) h, dictGet_insert_other d k k0 v0 hk]

theorem dictGet_update_found (other d : List (String × WordRef)) (k : String) (v : WordRef)
    (hN : (other.map Prod.fst).Nodup) (h : dictGet other k = some v) :
    dictGet (dictUpdate d other) k = some v := by
  induction other generalizing d with
  | nil => simp [dictGet] at h
  | cons kv rest ih =>
      obtain ⟨k0, v0⟩ := kv
      have hupd : dictUpdate d ((k0, v0) :: rest) = dictUpdate (dictInsert d k0 v0) rest := by
        simp [dictUpdate]
      simp only [List.map_cons, List.nodup_cons] at hN
      by_cases hk : k0 = k
      · simp only [dictGet, hk, if_true] at h
        subst hk
        have habs : dictGet rest k0 = none :=
          dictGet_eq_none_of_not_mem rest k0 hN.1
        rw [hupd, dictGet_update_absent rest (dictInsert d k0 v0) k0 habs,
          dictGet_insert_self, h]
      · simp only [dictGet, hk, if_false] at h
        rw [hupd, ih (dictInsert d k0 v0) hN.2 h]

theorem dictGet_filter_of_get (l : List (String × WordRef)) (p : String × WordRef → Bool)
    (k : String) (v : WordRef) (hN : (l.map Prod.fst).Nodup) (h : dictGet l k = some v) :
    dictGet (l.filter p) k = if p (k, v) then some v else none := by
  induction l with
  | nil => simp [dictGet] at h
  | cons kv rest ih =>
      obtain ⟨k0, v0⟩ := kv
      simp only [List.map_cons, List.nodup_cons] at hN
      by_cases hk : k0 = k
      · subst hk
        simp [dictGet] at h
        subst h
        have hfil : dictGet (rest.filter p) k0 = none := by
          apply dictGet_eq_none_of_not_mem
          intro hmem
          have hsub : List.Sublist ((rest.filter p).map Prod.fst) (rest.map Prod.fst) :=
            (List.filter_sublist rest).map Prod.fst
          exact hN.1 (hsub.mem hmem)
        by_cases hp : p (k0, v0) = true
        · simp [List.filter_cons, hp, dictGet]
        · simp only [Bool.not_eq_true] at hp
          simp [List.filter_cons, hp, hfil]
      · simp only [dictGet, if_neg hk] at h
        have hrest := ih hN.2 h
        by_cases hp : p (k0, v0) = true
        · simp [List.filter_cons, hp, dictGet, hk, hrest]
        · simp only [Bool.not_eq_true] at hp
          simp [List.filter_cons, hp, hrest]

theorem dictGet_filter_none (l : List (String × WordRef)) (p : String × WordRef → Bool)
    (k : String) (h : dictGet l k = none) : dictGet (l.filter p) k = none := by
  induction l with
  | nil => simp [dictGet]
  | cons kv rest ih =>
      obtain ⟨k0, v0⟩ := kv
      by_cases hk : k0 = k
      · simp [dictGet, hk] at h
      · simp only [dictGet, if_neg hk] at h
        by_cases hp : p (k0, v0) = true
        · simp [List.filter_cons, hp, dictGet, hk, ih h]
        · simp only [Bool.not_eq_true] at hp
          simp [List.filter_cons, hp, ih h]

/-- C3 (amended): after the merge step of `import_module`, every
dictionary entry of the sub-VM that refers to a defined word with
`hidden = False` is resolvable in the importer (overwriting a
same-named entry); no entry whose word is hidden is copied; and — in
contrast to the claim — entries lacking a `hidden` attribute
(built-ins) are NOT copied either, because the filter requires
`hasattr(v, 'hidden')`: for such names the importer keeps its own
binding (or none). -/
theorem c3_import_merge_amended (selfDict : List (String × WordRef)) (modVm : VMState)
    (name : String) (hN : (modVm.dictionary.map Prod.fst).Nodup) :
    (∀ id : Nat, ∀ w : DefWord,
      dictGet modVm.dictionary name = some (WordRef.defined id) →
      modVm.words.get? id = some w → w.hidden = false →
      dictGet (importMerge selfDict modVm) name = some (WordRef.defined id)) ∧
    (∀ id : Nat, ∀ w : DefWord,
      dictGet modVm.dictionary name = some (WordRef.defined id) →
      modVm.words.get? id = some w → w.hidden = true →
      dictGet (importMerge selfDict modVm) name = dictGet selfDict name) ∧
    (∀ b : Builtin, dictGet modVm.dictionary name = some (WordRef.builtin b) →
      dictGet (importMerge selfDict modVm) name = dictGet selfDict name) ∧
    (dictGet modVm.dictionary name = none →
      dictGet (importMerge selfDict modVm) name = dictGet selfDict name) := by
  have hNpub : ((publicWords modVm).map Prod.fst).Nodup := by
    have hsub : List.Sublist ((publicWords modVm).map Prod.fst)
        (modVm.dictionary.map Prod.fst) :=
      (List.filter_sublist modVm.dictionary).map Prod.fst
    exact hN.sublist hsub
  refine ⟨?_, ?_, ?_, ?_⟩
  · intro id w hget hw hh
    have hfil : dictGet (publicWords modVm) name = some (WordRef.defined id) := by
      have hg := dictGet_filter_of_get modVm.dictionary (pubFilter modVm) name
        (WordRef.defined id) hN hget
      rw [List.get?_eq_getElem?] at hw
      simpa [publicWords, pubFilter, hw, hh] using hg
    exact dictGet_update_found (publicWords modVm) selfDict name _ hNpub hfil
  · intro id w hget hw hh
    have hfil : dictGet (publicWords modVm) name = none := by
      have hg := dictGet_filter_of_get modVm.dictionary (pubFilter modVm) name
        (WordRef.defined id) hN hget
      rw [List.get?_eq_getElem?] at hw
      simpa [publicWords, pubFilter, hw, hh] using hg
    exact dictGet_update_absent (publicWords modVm) selfDict name hfil
  · intro b hget
    have hfil : dictGet (publicWords modVm) name = none := by
      have hg := dictGet_filter_of_get modVm.dictionary (pubFilter modVm) name
        (WordRef.builtin b) hN hget
      simpa [publicWords, pubFilter] using hg
    exact dictGet_update_absent (publicWords modVm) selfDict name hfil
  · intro hget
    have hfil : dictGet (publicWords modVm) name = none :=
      dictGet_filter_none modVm.dictionary _ name hget
    exact dictGet_update_absent (publicWords modVm) selfDict name hfil

/-- C3 (counterexample): the claim also asserts that sub-VM dictionary
entries lacking a `hidden` attribute (built-in words) are copied into
the importer; on the code they are not: merging a fresh sub-VM (whose
dictionary is the primitives registry) into an empty importer
dictionary yields no binding for `dup`, although the sub-VM has one. -/
theorem c3_builtins_not_copied_counterexample :
    dictGet (initState "").dictionary "dup" = some (WordRef.builtin Builtin.dup) ∧
    dictGet (importMerge [] (initState "")) "dup" = none := by
  decide

/-- C3 (witness): the amended import-merge properties instantiated on a
concrete sub-VM with a public word, a hidden word and a built-in. -/
theorem c3_import_merge_amended_witness :
    (c3modVm.dictionary.map Prod.fst).Nodup ∧
    dictGet (importMerge [("pub", WordRef.builtin Builtin.drop)] c3modVm) "pub" =
      some (WordRef.defined 0) ∧
    dictGet (importMerge [] c3modVm) "priv" = none ∧
    dictGet (importMerge [] c3modVm) "neg" = none := by
  refine ⟨by decide, ?_, ?_, ?_⟩
  · exact (c3_import_merge_amended [("pub", WordRef.builtin Builtin.drop)] c3modVm "pub"
      (by decide)).1 0
      { symbol := "pub", immediate := false, code := [Val.int 1],
        stack_effect := none, hidden := false, text_location := some 1 }
      (by decide) (by decide) (by decide)
  · have h := (c3_import_merge_amended [] c3modVm "priv" (by decide)).2.1 1
      { symbol := "priv", immediate := false, code := [Val.int 2],
        stack_effect := none, hidden := true, text_location := some 9 }
      (by decide) (by decide) (by decide)
    rw [h]
    decide
  · have h := (c3_import_merge_amended [] c3modVm "neg" (by decide)).2.2.1 Builtin.neg
      (by decide)
    rw [h]
    decide

/-- C5 (counterexample): the claim says `write(text)` places the text
at the logical end with all not-yet-read characters still readable
before it, for every stream state.  With the cursor at 0 and unread
content `"ab"`, the write overwrites `"ab"` in place: the unread
portion afterwards is `"\nz"`, not `"ab\nz"`. -/
theorem c5_write_overwrites_counterexample :
    csUnread (csWrite { content := "ab".data, pos := 0, last_word_start := none } "z") =
      ['\n', 'z'] ∧
    csUnread { content := "ab".data, pos := 0, last_word_start := none } = ['a', 'b'] ∧
    (['\n', 'z'] : List Char) ≠ ['a', 'b'] ++ '\n' :: "z".data := by
  decide

/-- C5 (amended): `write(text)` writes `'\n' ++ text` starting at the
current cursor position, overwriting any unread characters in that
range, and never moves the cursor.  When the cursor is at the end of
the stream — the REPL's steady state after `run()` exhausts the input —
this appends at the logical end and the next read continues where it
was, seeing `'\n'` followed by the text. -/
theorem c5_write_amended (cs : CharStream) (text : String) :
    (csWrite cs text).pos = cs.pos ∧
    (cs.pos = cs.content.length →
      (csWrite cs text).content = cs.content ++ '\n' :: text.data ∧
      csUnread (csWrite cs text) = '\n' :: text.data) := by
  refine ⟨rfl, ?_⟩
  intro h
  have hc : (csWrite cs text).content = cs.content ++ '\n' :: text.data := by
    simp [csWrite, h, List.take_length]
    omega
  refine ⟨hc, ?_⟩
  simp only [csUnread, csWrite] at hc ⊢
  rw [hc, h, List.drop_left]

/-- C5 (witness): the amended write property instantiated at a stream
whose cursor sits at the end. -/
theorem c5_write_amended_witness :
    (({ content := "ab".data, pos := 2, last_word_start := none } : CharStream).pos =
      ({ content := "ab".data, pos := 2, last_word_start := none } : CharStream).content.length) ∧
    (csWrite { content := "ab".data, pos := 2, last_word_start := none } "z").pos = 2 ∧
    (csWrite { content := "ab".data, pos := 2, last_word_start := none } "z").content =
      "ab".data ++ '\n' :: "z".data ∧
    csUnread (csWrite { content := "ab".data, pos := 2, last_word_start := none } "z") =
      '\n' :: "z".data := by
  have h := c5_write_amended { content := "ab".data, pos := 2, last_word_start := none } "z"
  exact ⟨by decide, h.1, (h.2 (by decide)).1, (h.2 (by decide)).2⟩

/-- The scanning loop of `accum_until` consumes the whole rest of the
stream without error when the single-character sentinel `)` never
occurs in it. -/
theorem accumCore_no_sentinel (l acc : List Char) (buff : List (Option Char))
    (hlen : buff.length = 1) (h : ')' ∉ l) :
    accumCore [some ')'] buff acc l = (acc ++ l, [], false) := by
  induction l generalizing acc buff with
  | nil => simp [accumCore]
  | cons c rest ih =>
      have hc : ¬(c = ')') := by
        intro hh
        exact h (by simp [hh])
      have ht : buff.tail = [] := by
        cases buff with
        | nil => simp at hlen
        | cons a t =>
            cases t with
            | nil => rfl
            | cons b u => simp at hlen
      have hrest : ')' ∉ rest := fun hm => h (List.mem_cons_of_mem _ hm)
      simp only [accumCore, ht, List.nil_append]
      rw [if_neg (by simp [hc])]
      rw [ih (acc ++ [c]) [some c] rfl hrest]
      simp

/-- C6 (counterexample): the claim says `(` fails with a lexical
runtime error when the stream ends before the closing `)`.  On the
code, the `StopIteration` handler in `accum_until` simply breaks: on
the exhausted stream `"xyz"` the primitive returns normally (the VM
state is unchanged apart from the consumed stream) and `accum_until`
yields the partial text `"xyz"` with no error. -/
theorem c6_no_lexical_error_counterexample :
    execBuiltin Builtin.parenComment
      { initState "" with
          stream := { content := "xyz".data, pos := 0, last_word_start := none } } =
      PyRes.ok ()
        { initState "" with
            stream := { content := "xyz".data, pos := 3, last_word_start := none } } ∧
    accumUntil { content := "xyz".data, pos := 0, last_word_start := none } ")" =
      Except.ok ("xyz", { content := "xyz".data, pos := 3, last_word_start := none }) := by
  decide

/-- C6 (amended): when the stream is exhausted before the closing
delimiter, `accum_until` returns the partial text silently, with the
last `len(sentinel) - 1` accumulated characters removed: for `(` (the
sentinel `)`) the whole unread rest of the stream is returned; for `("
(the sentinel `")`), the partial text minus one character — and when
nothing at all was accumulated, the trailing `accum.pop()` raises a
host `IndexError`, not a lexical VM error. -/
theorem c6_accum_until_amended :
    (∀ cs : CharStream, ')' ∉ csUnread cs →
      accumUntil cs ")" =
        Except.ok (String.mk (csUnread cs),
          { cs with pos := cs.pos + (csUnread cs).length })) ∧
    accumUntil { content := "xy".data, pos := 0, last_word_start := none } "\")" =
      Except.ok ("x", { content := "xy".data, pos := 2, last_word_start := none }) ∧
    accumUntil { content := [], pos := 0, last_word_start := none } "\")" =
      Except.error (PyErr.indexError "pop from an empty deque") := by
  refine ⟨?_, by decide, by decide⟩
  intro cs h
  have hd : (")" : String).data = [')'] := rfl
  have hcore := accumCore_no_sentinel (csUnread cs) [] [none] rfl h
  simp [accumUntil, hd, List.replicate, hcore, popEnd]

/-- C6 (witness): the amended accumulate-to-end property instantiated
on a concrete stream with no closing delimiter. -/
theorem c6_accum_until_amended_witness :
    (')' ∉ csUnread { content := "abc".data, pos := 1, last_word_start := none }) ∧
    accumUntil { content := "abc".data, pos := 1, last_word_start := none } ")" =
      Except.ok ("bc", { content := "abc".data, pos := 3, last_word_start := none }) := by
  refine ⟨by decide, ?_⟩
  have h := c6_accum_until_amended.1
    { content := "abc".data, pos := 1, last_word_start := none } (by decide)
  exact h.trans (by decide)

/-- C7 (counterexample): the claim says every stack primitive
underflows with the `VmRuntimeError` stack-underflow error; `drop` on
an empty stack instead raises the host `IndexError` of
`deque.pop()`, which the VM's error model does not convert. -/
theorem c7_drop_underflow_counterexample :
    raisedErr (execBuiltin Builtin.drop (stateWithStack [])) =
      some (PyErr.indexError "pop from an empty deque") ∧
    some (PyErr.indexError "pop from an empty deque") ≠
      some (PyErr.vmRuntime "Stack underflow") := by
  decide

/-- C7 (amended): the helpers `Stack.unary_op` / `Stack.binary_op`
(used by the arithmetic and comparison primitives) convert the
underflow `IndexError` into `VmRuntimeError('Stack underflow')` — for
`binary_op` a successful first pop is not undone — while the shufflers
`drop`, `swap`, `dup`, `over`, `rot` access the deque directly and
raise the host `IndexError` unconverted. -/
theorem c7_underflow_amended :
    (∀ (f : Val → Val → Except PyErr Val) (s : List Val), s.length < 2 →
      binaryOp f (stateWithStack s) =
        PyRes.exn (PyErr.vmRuntime "Stack underflow") (stateWithStack [])) ∧
    (∀ f : Val → Except PyErr Val,
      unaryOp f (stateWithStack []) =
        PyRes.exn (PyErr.vmRuntime "Stack underflow") (stateWithStack [])) ∧
    (execBuiltin Builtin.drop (stateWithStack []) =
      PyRes.exn (PyErr.indexError "pop from an empty deque") (stateWithStack [])) ∧
    (∀ s : List Val, s.length < 2 → execBuiltin Builtin.swap (stateWithStack s) =
      PyRes.exn (PyErr.indexError "deque index out of range") (stateWithStack s)) ∧
    (execBuiltin Builtin.dup (stateWithStack []) =
      PyRes.exn (PyErr.indexError "deque index out of range") (stateWithStack [])) ∧
    (∀ s : List Val, s.length < 2 → execBuiltin Builtin.over (stateWithStack s) =
      PyRes.exn (PyErr.indexError "deque index out of range") (stateWithStack s)) ∧
    (∀ s : List Val, s.length < 3 → execBuiltin Builtin.rot (stateWithStack s) =
      PyRes.exn (PyErr.indexError "deque index out of range") (stateWithStack s)) := by
  refine ⟨?_, ?_, by decide, ?_, by decide, ?_, ?_⟩
  · intro f s hlen
    match s with
    | [] => rfl
    | [a] => rfl
    | a :: b :: u =>
        simp only [List.length_cons] at hlen
        omega
  · intro f
    rfl
  · intro s hlen
    match s with
    | [] => rfl
    | [a] => rfl
    | a :: b :: u =>
        simp only [List.length_cons] at hlen
        omega
  · intro s hlen
    match s with
    | [] => rfl
    | [a] => rfl
    | a :: b :: u =>
        simp only [List.length_cons] at hlen
        omega
  · intro s hlen
    match s with
    | [] => rfl
    | [a] => rfl
    | [a, b] => rfl
    | a :: b :: c :: u =>
        simp only [List.length_cons] at hlen
        omega

/-- C7 (witness): the amended underflow behaviors instantiated at
concrete short stacks. -/
theorem c7_underflow_amended_witness :
    binaryOp pyAdd (stateWithStack [Val.int 3]) =
      PyRes.exn (PyErr.vmRuntime "Stack underflow") (stateWithStack []) ∧
    unaryOp pyNeg (stateWithStack []) =
      PyRes.exn (PyErr.vmRuntime "Stack underflow") (stateWithStack []) ∧
    execBuiltin Builtin.swap (stateWithStack [Val.int 1]) =
      PyRes.exn (PyErr.indexError "deque index out of range")
        (stateWithStack [Val.int 1]) ∧
    execBuiltin Builtin.rot (stateWithStack [Val.int 1, Val.int 2]) =
      PyRes.exn (PyErr.indexError "deque index out of range")
        (stateWithStack [Val.int 1, Val.int 2]) :=
  ⟨c7_underflow_amended.1 pyAdd [Val.int 3] (by decide),
   c7_underflow_amended.2.1 pyNeg,
   c7_underflow_amended.2.2.2.1 [Val.int 1] (by decide),
   c7_underflow_amended.2.2.2.2.2.2 [Val.int 1, Val.int 2] (by decide)⟩

/-- C9 (counterexample): the claim says each zero/one-comparison word
pushes a boolean for every non-empty data stack; with a string on top,
`0<` evaluates `top < 0`, which raises a host `TypeError` in Python 3
— no boolean is pushed. -/
theorem c9_zero_lt_str_counterexample :
    primStack Builtin.zeroLt [Val.str "a"] =
      Except.error (PyErr.typeError "< not supported between these instances") ∧
    (Except.error (PyErr.typeError "< not supported between these instances") :
      Except PyErr (List Val)).isOk = false := by
  decide

/-- C9 (amended): on every non-empty data stack, `0=`, `0<>` and `1=`
push the boolean comparison of the un-consumed top against 0 (or 1),
leaving the previous top directly below the pushed boolean; `0<` and
`0>` do the same whenever the order comparison of the top with 0
succeeds (int, bool and float tops), and propagate its `TypeError`
otherwise (string, word-object and complex tops). -/
theorem c9_zero_forms_amended (v : Val) (rest : List Val) :
    primStack Builtin.zeroEq (v :: rest) =
      Except.ok (Val.bool (pyEqInt v 0) :: v :: rest) ∧
    primStack Builtin.zeroNe (v :: rest) =
      Except.ok (Val.bool (!pyEqInt v 0) :: v :: rest) ∧
    primStack Builtin.oneEq (v :: rest) =
      Except.ok (Val.bool (pyEqInt v 1) :: v :: rest) ∧
    (∀ b : Bool, pyLtInt v 0 = Except.ok b →
      primStack Builtin.zeroLt (v :: rest) = Except.ok (Val.bool b :: v :: rest)) ∧
    (∀ e : PyErr, pyLtInt v 0 = Except.error e →
      primStack Builtin.zeroLt (v :: rest) = Except.error e) ∧
    (∀ b : Bool, pyGtInt v 0 = Except.ok b →
      primStack Builtin.zeroGt (v :: rest) = Except.ok (Val.bool b :: v :: rest)) ∧
    (∀ e : PyErr, pyGtInt v 0 = Except.error e →
      primStack Builtin.zeroGt (v :: rest) = Except.error e) := by
  refine ⟨rfl, rfl, rfl, ?_, ?_, ?_, ?_⟩
  · intro b hb
    simp [primStack, execBuiltin, stateWithStack, hb]
  · intro e he
    simp [primStack, execBuiltin, stateWithStack, he]
  · intro b hb
    simp [primStack, execBuiltin, stateWithStack, hb]
  · intro e he
    simp [primStack, execBuiltin, stateWithStack, he]

/-- C9 (witness): the amended comparison behaviors instantiated at a
negative integer top. -/
theorem c9_zero_forms_amended_witness :
    primStack Builtin.zeroEq [Val.int (-7)] =
      Except.ok [Val.bool false, Val.int (-7)] ∧
    pyLtInt (Val.int (-7)) 0 = Except.ok true ∧
    primStack Builtin.zeroLt [Val.int (-7)] =
      Except.ok [Val.bool true, Val.int (-7)] := by
  have h := c9_zero_forms_amended (Val.int (-7)) []
  exact ⟨h.1, by decide, h.2.2.2.1 true (by decide)⟩

/-- C10: numeric literals shadow the dictionary: for every symbol
matching the anchored `(-)?tokenize.Number` pattern, `parse_symbol`
returns the converted numeric value — never a word object — regardless
of the dictionary's contents, and the dictionary is consulted only for
symbols that are not numeric literals (yielding the bound word, or the
undefined-symbol runtime error). -/
theorem c10_numeric_literal_shadows_dictionary (symb : String)
    (d : List (String × WordRef)) :
    (is_numeric_literal symb = true →
      parse_symbol d symb = Except.ok (numValToVal (decodeNumLit symb)) ∧
      ∀ r : WordRef, numValToVal (decodeNumLit symb) ≠ Val.word r) ∧
    (is_numeric_literal symb = false →
      parse_symbol d symb =
        match dictGet d symb with
        | some w => Except.ok (Val.word w)
        | none =>
            Except.error (PyErr.vmRuntime ("Undefined symbol: \"" ++ symb ++ "\""))) := by
  constructor
  · intro h
    constructor
    · simp [parse_symbol, convert_numeric_literal, h]
    · intro r
      cases hnv : decodeNumLit symb <;> simp [numValToVal]
  · intro h
    simp [parse_symbol, h]

/-- C10 (witness): the literal `"5"` converts to the integer 5 and
shadows a same-named dictionary word. -/
theorem c10_numeric_literal_shadows_dictionary_witness :
    is_numeric_literal "5" = true ∧
    dictGet [("5", WordRef.builtin Builtin.dup)] "5" =
      some (WordRef.builtin Builtin.dup) ∧
    parse_symbol [("5", WordRef.builtin Builtin.dup)] "5" = Except.ok (Val.int 5) := by
  have h := (c10_numeric_literal_shadows_dictionary "5"
    [("5", WordRef.builtin Builtin.dup)]).1 (by decide)
  exact ⟨by decide, by decide, h.1.trans (by decide)⟩

end Sloth
